import Mathlib

/-!
Shallow embedding of the core logic of `src/gui.py` from
renbkna/github-deployment-cleaner-gui: the deployment list-and-enrich
pipeline (`list_deployments`, `fetch_status_async`), the two per-item
mutations (`mark_inactive`, `delete_deployment`), and the two bulk loops
(`mark_all_inactive`, `delete_all_inactive`).

HTTP transport is modelled by explicit outcome types: a request either
raises (an exception carrying a description) or yields a response with a
numeric status code and a body whose JSON parse may itself fail.  Python
values decoded from JSON are modelled by the `Json` inductive; Python
truthiness, `obj[0]` indexing, `dict.get`, and dict assignment are
modelled by `pyTruthy`, `indexZero`, `dictGet`, and `setKey`.
-/

/-- A Python value decoded from a JSON body: None, bool, int, str, list, dict. -/
inductive Json where
  | null : Json
  | bool : Bool → Json
  | num : Int → Json
  | str : String → Json
  | arr : List Json → Json
  | obj : List (String × Json) → Json

/-- Python truthiness (`if x:`) of a decoded JSON value. -/
def pyTruthy : Json → Bool
  | .null => false
  | .bool b => b
  | .num n => n != 0
  | .str s => !s.isEmpty
  | .arr xs => !xs.isEmpty
  | .obj fs => !fs.isEmpty

/-- Truthiness of `d.get(k)`: `None` (missing key) is falsy. -/
def pyTruthyOpt : Option Json → Bool
  | none => false
  | some j => pyTruthy j

/-- Association-list lookup modelling Python `dict` key access (string keys). -/
def lookupKey : List (String × Json) → String → Option Json
  | [], _ => none
  | (k0, v0) :: rest, k => if k0 == k then some v0 else lookupKey rest k

/-- Python dict assignment `d[k] = v`: replace the value of an existing key
in place, otherwise append the new key at the end. -/
def setKey : List (String × Json) → String → Json → List (String × Json)
  | [], k, v => [(k, v)]
  | (k0, v0) :: rest, k, v =>
      if k0 == k then (k0, v) :: rest else (k0, v0) :: setKey rest k v

mutual

/-- Python `repr` of a decoded JSON value (used by `str` on containers). -/
def pyRepr : Json → String
  | .null => "None"
  | .bool true => "True"
  | .bool false => "False"
  | .num n => toString n
  | .str s => "\x27" ++ s ++ "\x27"
  | .arr xs => "[" ++ pyReprList xs ++ "]"
  | .obj fs => "\x7b" ++ pyReprFields fs ++ "\x7d"

/-- `repr` of the elements of a Python list, comma separated. -/
def pyReprList : List Json → String
  | [] => ""
  | [x] => pyRepr x
  | x :: y :: rest => pyRepr x ++ ", " ++ pyReprList (y :: rest)

/-- `repr` of the entries of a Python dict, comma separated. -/
def pyReprFields : List (String × Json) → String
  | [] => ""
  | [(k, v)] => "\x27" ++ k ++ "\x27: " ++ pyRepr v
  | (k, v) :: p :: rest =>
      "\x27" ++ k ++ "\x27: " ++ pyRepr v ++ ", " ++ pyReprFields (p :: rest)

end

/-- Python `str()` as used by f-string interpolation: identity on strings,
`repr`-style rendering otherwise. -/
def pyStr : Json → String
  | .str s => s
  | j => pyRepr j

/-- Transport outcome of one HTTP GET issued by `fetch_status_async`:
either the request raised, or a response arrived with a status code and a
body whose JSON parse either succeeds with a value or raises. -/
inductive FetchOutcome where
  | exn : String → FetchOutcome
  | resp : Nat → Except String Json → FetchOutcome

/-- Python `x[0]`: first element of a list, first character of a non-empty
string, `KeyError`/`TypeError` (an exception) otherwise. -/
def indexZero : Json → Except String Json
  | .arr (x :: _) => .ok x
  | .arr [] => .error "IndexError"
  | .str s => if s.isEmpty then .error "IndexError" else .ok (.str (s.take 1))
  | .obj _ => .error "KeyError"
  | _ => .error "TypeError"

/-- Python `e.get(k, dflt)`: defaulting dict lookup on a dict,
`AttributeError` (an exception) on anything else. -/
def dictGet (e : Json) (k : String) (dflt : Json) : Except String Json :=
  match e with
  | .obj fs => .ok ((lookupKey fs k).getD dflt)
  | _ => .error "AttributeError"

/-- The `state` field of a status element, when the element is a dict that
has one. -/
def stateField : Json → Option Json
  | .obj fs => lookupKey fs "state"
  | _ => none

/-- `fetch_status_async` (gui.py lines 52-69): on a 200 response whose body
parsed, return `statuses[0].get("state", "pending")` when the body is
truthy and `"pending"` otherwise; on any other status, or any exception
anywhere in the body (request failure, parse failure, bad indexing),
return `"unknown"`. -/
def fetch_status_async (o : FetchOutcome) : Json :=
  match o with
  | .exn _ => .str "unknown"
  | .resp status body =>
      if status = 200 then
        match body with
        | .error _ => .str "unknown"
        | .ok statuses =>
            if pyTruthy statuses then
              match indexZero statuses with
              | .error _ => .str "unknown"
              | .ok e =>
                  match dictGet e "state" (.str "pending") with
                  | .error _ => .str "unknown"
                  | .ok v => v
            else .str "pending"
      else .str "unknown"

/-- Transport outcome of the one listing GET issued by `list_deployments`. -/
inductive ListOutcome where
  | exn : String → ListOutcome
  | resp : Nat → Except String Json → ListOutcome

/-- Result of `list_deployments`: either a list of (enriched) deployment
values, or the `{"error": msg}` dictionary the source returns on failure. -/
inductive ListResult where
  | deployments : List Json → ListResult
  | err : String → ListResult

/-- The new `state` value the enrichment loop assigns to a deployment with
fields `fs`: the fetched status of its own lookup (`oracle i`) when its
`statuses_url` is truthy, `"unknown"` otherwise (gui.py lines 111-123). -/
def newState (oracle : Nat → FetchOutcome) (i : Nat)
    (fs : List (String × Json)) : Json :=
  if pyTruthyOpt (lookupKey fs "statuses_url") then fetch_status_async (oracle i)
  else .str "unknown"

/-- Net effect of enrichment on the `i`-th deployment when it is a dict:
`deployment["state"] = ...` with the state of `newState`. Non-dict values
are returned unchanged (that case is diverted to an exception by
`enrichOne`). -/
def enrichElem (oracle : Nat → FetchOutcome) (i : Nat) (d : Json) : Json :=
  match d with
  | .obj fs => .obj (setKey fs "state" (newState oracle i fs))
  | _ => d

/-- Enrichment of the `i`-th raw deployment as the source performs it:
`deployment.get("statuses_url")` raises `AttributeError` on a non-dict
element (caught by the outer handler of `list_deployments`); on a dict it
assigns the `state` key. -/
def enrichOne (oracle : Nat → FetchOutcome) (i : Nat) (d : Json) :
    Except String Json :=
  match d with
  | .obj _ => .ok (enrichElem oracle i d)
  | _ => .error "AttributeError"

/-- The enrichment loop over the raw deployment list, starting at index
`i`; the first exception aborts the whole listing call (outer `except`). -/
def enrichFrom (oracle : Nat → FetchOutcome) : Nat → List Json →
    Except String (List Json)
  | _, [] => .ok []
  | i, d :: rest =>
      match enrichOne oracle i d with
      | .error e => .error e
      | .ok d2 =>
          match enrichFrom oracle (i + 1) rest with
          | .error e => .error e
          | .ok rest2 => .ok (d2 :: rest2)

/-- The error message built on a non-200 listing response (gui.py lines
94-102): always carries the numeric status; the server `message` field is
appended when the body parses to a dict (missing field falls back to
"No details available"); a parse failure or non-dict body is swallowed by
the inner `except: pass`. -/
def listErrorMsg (status : Nat) (body : Except String Json) : String :=
  match body with
  | .error _ => "Failed to fetch deployments: " ++ toString status
  | .ok j =>
      match j with
      | .obj fs =>
          "Failed to fetch deployments: " ++ toString status ++ " - " ++
            pyStr ((lookupKey fs "message").getD (.str "No details available"))
      | _ => "Failed to fetch deployments: " ++ toString status

/-- `list_deployments` (gui.py lines 83-128).  `l` is the outcome of the
listing GET; `oracle i` is the outcome of the status GET issued for the
`i`-th raw deployment (each lookup is an independent request).  A `None`
base_url short-circuits to `[]`; a non-200 response yields the error
dict; a 200 response with falsy body yields `[]`; otherwise every element
is enriched in order, any exception inside the `try` becoming the outer
error dict. -/
def list_deployments (base_url : Option String) (l : ListOutcome)
    (oracle : Nat → FetchOutcome) : ListResult :=
  match base_url with
  | none => .deployments []
  | some _ =>
      match l with
      | .exn m => .err ("Failed to list deployments: " ++ m)
      | .resp status body =>
          if status = 200 then
            match body with
            | .error m => .err ("Failed to list deployments: " ++ m)
            | .ok deployments =>
              if pyTruthy deployments then
                match deployments with
                | .arr ds =>
                    match enrichFrom oracle 0 ds with
                    | .ok es => .deployments es
                    | .error e => .err ("Failed to list deployments: " ++ e)
                | .str _ => .err ("Failed to list deployments: AttributeError")
                | .obj _ => .err ("Failed to list deployments: AttributeError")
                | _ => .err ("Failed to list deployments: TypeError")
              else .deployments []
          else .err (listErrorMsg status body)

/-- Transport outcome of one mutating request (POST or DELETE): either the
request raised, or a response with the given status code arrived. -/
inductive MutOutcome where
  | exn : String → MutOutcome
  | resp : Nat → MutOutcome

/-- `mark_inactive` (gui.py lines 131-148): `False` without any request
when base_url is `None`; otherwise one POST whose success is exactly
HTTP 201.  A raised transport exception propagates (no handler). -/
def mark_inactive (base_url : Option String) (o : MutOutcome) :
    Except String Bool :=
  match base_url with
  | none => .ok false
  | some _ =>
      match o with
      | .exn m => .error m
      | .resp status => .ok (status = 201)

/-- `delete_deployment` (gui.py lines 151-167): `False` without any
request when base_url is `None`; otherwise one DELETE whose success is
exactly HTTP 204.  A raised transport exception propagates (no handler). -/
def delete_deployment (base_url : Option String) (o : MutOutcome) :
    Except String Bool :=
  match base_url with
  | none => .ok false
  | some _ =>
      match o with
      | .exn m => .error m
      | .resp status => .ok (status = 204)

/-- Aggregate outcome of a bulk loop: final counters plus the trace of
`id` values whose mutation was invoked, in invocation order. -/
structure BulkResult where
  success_count : Nat
  failure_count : Nat
  processed : List Json

/-- The loop body shared by `mark_all_inactive` (gui.py lines 921-945) and
`delete_all_inactive` (gui.py lines 968-992): for each deployment in the
given order, read `dep.get("id")` (AttributeError on a non-dict), invoke
the per-item mutation with the outcome of that item (`outcome i`), count
the boolean result, and continue; an uncaught exception aborts the task. -/
def bulkLoop (mutate : MutOutcome → Except String Bool)
    (outcome : Nat → MutOutcome) : Nat → List Json → Except String BulkResult
  | _, [] => .ok ⟨0, 0, []⟩
  | i, d :: rest =>
      match dictGet d "id" .null with
      | .error e => .error e
      | .ok idv =>
          match mutate (outcome i) with
          | .error e => .error e
          | .ok success =>
              match bulkLoop mutate outcome (i + 1) rest with
              | .error e => .error e
              | .ok r =>
                  if success then
                    .ok ⟨r.success_count + 1, r.failure_count, idv :: r.processed⟩
                  else
                    .ok ⟨r.success_count, r.failure_count + 1, idv :: r.processed⟩

/-- The bulk mark-inactive task over its (already filtered) deployment
list: sequential `mark_inactive` calls against `base_url`. -/
def mark_all_inactive (base_url : String) (outcome : Nat → MutOutcome)
    (deps : List Json) : Except String BulkResult :=
  bulkLoop (mark_inactive (some base_url)) outcome 0 deps

/-- The bulk delete task over its (already filtered) deployment list:
sequential `delete_deployment` calls against `base_url`. -/
def delete_all_inactive (base_url : String) (outcome : Nat → MutOutcome)
    (deps : List Json) : Except String BulkResult :=
  bulkLoop (delete_deployment (some base_url)) outcome 0 deps

/-- Whether a decoded JSON value is a Python dict. -/
def Json.isObj : Json → Bool
  | .obj _ => true
  | _ => false

theorem lookupKey_setKey (fs : List (String × Json)) (k : String) (v : Json) :
    lookupKey (setKey fs k v) k = some v := by
  induction fs with
  | nil => simp [setKey, lookupKey]
  | cons p rest ih =>
      obtain ⟨k0, v0⟩ := p
      by_cases h : k0 = k
      · simp [setKey, lookupKey, h]
      · simp [setKey, lookupKey, h, ih]

/-- C3: `fetch_status_async` is a total function (never raises) and its
value is always in one of exactly three classes: the literal `"unknown"`,
the literal `"pending"`, or the `state` field of the first status element
of a successfully parsed response body. -/
theorem fetch_status_total_trichotomy (o : FetchOutcome) :
    fetch_status_async o = .str "unknown" ∨
    fetch_status_async o = .str "pending" ∨
    ∃ s statuses e, o = .resp s (.ok statuses) ∧ indexZero statuses = .ok e ∧
      stateField e = some (fetch_status_async o) := by
  cases o with
  | exn m => exact Or.inl rfl
  | resp s body =>
      by_cases hs : s = 200
      · subst hs
        cases body with
        | error m => exact Or.inl (by simp [fetch_status_async])
        | ok statuses =>
            by_cases ht : pyTruthy statuses
            · cases hz : indexZero statuses with
              | error e => exact Or.inl (by simp [fetch_status_async, ht, hz])
              | ok e =>
                  cases e with
                  | obj fs =>
                      cases hv : lookupKey fs "state" with
                      | none =>
                          refine Or.inr (Or.inl ?_)
                          simp [fetch_status_async, ht, hz, dictGet, hv]
                      | some v =>
                          refine Or.inr (Or.inr ⟨200, statuses, .obj fs, rfl, hz, ?_⟩)
                          simp [fetch_status_async, ht, hz, dictGet, hv, stateField]
                  | null => exact Or.inl (by simp [fetch_status_async, ht, hz, dictGet])
                  | bool b => exact Or.inl (by simp [fetch_status_async, ht, hz, dictGet])
                  | num n => exact Or.inl (by simp [fetch_status_async, ht, hz, dictGet])
                  | str st => exact Or.inl (by simp [fetch_status_async, ht, hz, dictGet])
                  | arr xs => exact Or.inl (by simp [fetch_status_async, ht, hz, dictGet])
            · exact Or.inr (Or.inl (by simp [fetch_status_async, ht]))
      · exact Or.inl (by simp [fetch_status_async, hs])

/-- C4: on an HTTP 200 status response, `fetch_status_async` returns the
`state` field of the first element whenever the collection is non-empty
(whatever its length), and the literal `"pending"` whenever the
collection is empty. -/
theorem fetch_status_success_cases :
    (∀ e rest v, stateField e = some v →
        fetch_status_async (.resp 200 (.ok (.arr (e :: rest)))) = v) ∧
    fetch_status_async (.resp 200 (.ok (.arr []))) = .str "pending" := by
  constructor
  · intro e rest v hv
    cases e with
    | obj fs =>
        simp only [stateField] at hv
        simp [fetch_status_async, pyTruthy, indexZero, dictGet, hv]
    | null => simp [stateField] at hv
    | bool b => simp [stateField] at hv
    | num n => simp [stateField] at hv
    | str st => simp [stateField] at hv
    | arr xs => simp [stateField] at hv
  · simp [fetch_status_async, pyTruthy]

/-- C4 witness: a one-element collection whose first element has
`state = "success"` yields `"success"`. -/
theorem fetch_status_success_cases_witness :
    stateField (.obj [("state", Json.str "success")]) = some (.str "success") ∧
    fetch_status_async
        (.resp 200 (.ok (.arr [.obj [("state", Json.str "success")]]))) =
      .str "success" :=
  ⟨by simp [stateField, lookupKey],
   fetch_status_success_cases.1 (.obj [("state", Json.str "success")]) []
     (.str "success") (by simp [stateField, lookupKey])⟩

/-- C9: on an HTTP 200 response whose body is a non-empty collection whose
first element is a dict with no `state` field, `fetch_status_async`
returns `"pending"` (the `.get` default), not `"unknown"`. -/
theorem fetch_status_missing_state_field (fs : List (String × Json))
    (rest : List Json) (h : lookupKey fs "state" = none) :
    fetch_status_async (.resp 200 (.ok (.arr (.obj fs :: rest)))) =
      .str "pending" := by
  simp [fetch_status_async, pyTruthy, indexZero, dictGet, h]

/-- C9 witness: a first element carrying only a `description` field yields
`"pending"`. -/
theorem fetch_status_missing_state_field_witness :
    lookupKey [("description", Json.str "deploying")] "state" = none ∧
    fetch_status_async
        (.resp 200 (.ok (.arr [.obj [("description", Json.str "deploying")]]))) =
      .str "pending" :=
  ⟨by simp [lookupKey],
   fetch_status_missing_state_field [("description", Json.str "deploying")] []
     (by simp [lookupKey])⟩

/-- C5: every transport- or protocol-level failure of a status lookup
(non-2xx response, raised request, parse failure) is absorbed into the
literal `"unknown"`; enrichment writes exactly that value into the
the `state` of a deployment when its own lookup failed; and the
enrichment of a deployment depends only on the outcome of its own lookup,
so the failure of one lookup cannot change the enrichment of any other
deployment. -/
theorem fetch_status_failure_absorbed_isolated :
    (∀ s body, s < 200 ∨ 300 ≤ s →
        fetch_status_async (.resp s body) = .str "unknown") ∧
    (∀ m, fetch_status_async (.exn m) = .str "unknown") ∧
    (∀ s m, fetch_status_async (.resp s (.error m)) = .str "unknown") ∧
    (∀ oracle i fs, pyTruthyOpt (lookupKey fs "statuses_url") = true →
        fetch_status_async (oracle i) = .str "unknown" →
        stateField (enrichElem oracle i (.obj fs)) = some (.str "unknown")) ∧
    (∀ (o1 o2 : Nat → FetchOutcome) i d, o1 i = o2 i →
        enrichOne o1 i d = enrichOne o2 i d) := by
  refine ⟨?_, ?_, ?_, ?_, ?_⟩
  · intro s body h
    have hs : s ≠ 200 := by omega
    simp [fetch_status_async, hs]
  · intro m
    rfl
  · intro s m
    by_cases hs : s = 200
    · subst hs
      simp [fetch_status_async]
    · simp [fetch_status_async, hs]
  · intro oracle i fs hurl hunk
    simp [enrichElem, stateField, newState, hurl, hunk, lookupKey_setKey]
  · intro o1 o2 i d h
    cases d with
    | obj fs => simp [enrichOne, enrichElem, newState, h]
    | null => rfl
    | bool b => rfl
    | num n => rfl
    | str st => rfl
    | arr xs => rfl

/-- C5 witness: a 404 lookup is non-2xx and yields `"unknown"`, and the
enriched state of a deployment whose own lookup answered 404 is exactly
`"unknown"`. -/
theorem fetch_status_failure_absorbed_isolated_witness :
    (404 < 200 ∨ 300 ≤ 404) ∧
    fetch_status_async (.resp 404 (.ok .null)) = .str "unknown" ∧
    stateField
        (enrichElem (fun _ => .resp 404 (.ok .null)) 0
          (Json.obj [("statuses_url", Json.str "https://api.github.com/s")])) =
      some (.str "unknown") := by
  refine ⟨Or.inr (by omega), ?_, ?_⟩
  · exact fetch_status_failure_absorbed_isolated.1 404 (.ok .null)
      (Or.inr (by omega))
  · exact fetch_status_failure_absorbed_isolated.2.2.2.1
      (fun _ => .resp 404 (.ok .null)) 0
      [("statuses_url", Json.str "https://api.github.com/s")]
      (by decide)
      (fetch_status_failure_absorbed_isolated.1 404 (.ok .null)
        (Or.inr (by omega)))

/-- C6: a deployment dict with no `statuses_url` key is enriched to state
exactly `"unknown"`, and its enrichment is independent of every lookup
outcome — no network call is consulted for it. -/
theorem enrich_without_statuses_url (oracle o2 : Nat → FetchOutcome) (i : Nat)
    (fs : List (String × Json)) (h : lookupKey fs "statuses_url" = none) :
    enrichOne oracle i (.obj fs) =
      .ok (.obj (setKey fs "state" (.str "unknown"))) ∧
    stateField (enrichElem oracle i (.obj fs)) = some (.str "unknown") ∧
    enrichOne oracle i (.obj fs) = enrichOne o2 i (.obj fs) := by
  refine ⟨?_, ?_, ?_⟩
  · simp [enrichOne, enrichElem, newState, h, pyTruthyOpt]
  · simp [enrichElem, stateField, newState, h, pyTruthyOpt, lookupKey_setKey]
  · simp [enrichOne, enrichElem, newState, h, pyTruthyOpt]

/-- C6 witness: a deployment carrying only an `id` is enriched to
`"unknown"` under any oracle, identically across oracles. -/
theorem enrich_without_statuses_url_witness :
    lookupKey [("id", Json.num 7)] "statuses_url" = none ∧
    enrichOne (fun _ => .exn "network down") 0 (.obj [("id", Json.num 7)]) =
      .ok (.obj [("id", Json.num 7), ("state", Json.str "unknown")]) :=
  ⟨rfl,
   (enrich_without_statuses_url (fun _ => .exn "network down")
      (fun _ => .resp 200 (.ok .null)) 0 [("id", Json.num 7)] rfl).1⟩

/-- The pure per-index image of the enrichment loop on an all-dict raw
list, starting at index `i`. -/
def enrichMap (oracle : Nat → FetchOutcome) : Nat → List Json → List Json
  | _, [] => []
  | i, d :: rest => enrichElem oracle i d :: enrichMap oracle (i + 1) rest

theorem enrichFrom_ok (oracle : Nat → FetchOutcome) (ds : List Json) :
    ∀ i, (∀ d ∈ ds, d.isObj = true) →
      enrichFrom oracle i ds = .ok (enrichMap oracle i ds) := by
  induction ds with
  | nil => intro i _; rfl
  | cons d rest ih =>
      intro i hobj
      have hd : d.isObj = true := hobj d (by simp)
      cases d with
      | obj fs =>
          have hrest := ih (i + 1) (fun x hx => hobj x (by simp [hx]))
          simp [enrichFrom, enrichOne, enrichMap, hrest]
      | null => simp [Json.isObj] at hd
      | bool b => simp [Json.isObj] at hd
      | num n => simp [Json.isObj] at hd
      | str st => simp [Json.isObj] at hd
      | arr xs => simp [Json.isObj] at hd

theorem enrichMap_length (oracle : Nat → FetchOutcome) (ds : List Json) :
    ∀ i, (enrichMap oracle i ds).length = ds.length := by
  induction ds with
  | nil => intro i; rfl
  | cons d rest ih => intro i; simp [enrichMap, ih]

theorem enrichMap_get? (oracle : Nat → FetchOutcome) (ds : List Json) :
    ∀ i k, (enrichMap oracle i ds).get? k =
      (ds.get? k).map (enrichElem oracle (i + k)) := by
  induction ds with
  | nil => intro i k; simp [enrichMap]
  | cons d rest ih =>
      intro i k
      cases k with
      | zero => simp [enrichMap]
      | succ k =>
          have h := ih (i + 1) k
          rw [show i + 1 + k = i + (k + 1) from by omega] at h
          simpa [enrichMap] using h

/-- C2: on a successful (HTTP 200) listing of deployment dicts, the
enriched output has exactly as many entries as the raw listing and the
`k`-th output entry is the enrichment of the `k`-th raw entry — relative
order is preserved. -/
theorem list_enrich_count_and_order (u : String) (oracle : Nat → FetchOutcome)
    (ds : List Json) (hobj : ∀ d ∈ ds, d.isObj = true) :
    ∃ es, list_deployments (some u) (.resp 200 (.ok (.arr ds))) oracle =
        .deployments es ∧
      es.length = ds.length ∧
      ∀ k, es.get? k = (ds.get? k).map (enrichElem oracle k) := by
  refine ⟨enrichMap oracle 0 ds, ?_, enrichMap_length oracle ds 0, ?_⟩
  · cases ds with
    | nil => rfl
    | cons d rest =>
        have he := enrichFrom_ok oracle (d :: rest) 0 hobj
        simp [list_deployments, pyTruthy, he]
  · intro k
    simpa using enrichMap_get? oracle ds 0 k

/-- C2 witness: a two-element listing (one deployment with a truthy
statuses_url whose lookup yields an empty collection, one without any
statuses_url) is enriched entry-for-entry in order. -/
theorem list_enrich_count_and_order_witness :
    (∀ d ∈ ([Json.obj [("statuses_url", Json.str "https://api.github.com/s")],
             Json.obj [("id", Json.num 2)]] : List Json), d.isObj = true) ∧
    ∃ es,
      list_deployments (some "https://api.github.com/repos/a/b/deployments")
          (.resp 200 (.ok (.arr
            [Json.obj [("statuses_url", Json.str "https://api.github.com/s")],
             Json.obj [("id", Json.num 2)]])))
          (fun _ => .resp 200 (.ok (.arr []))) = .deployments es ∧
      es.length =
        ([Json.obj [("statuses_url", Json.str "https://api.github.com/s")],
          Json.obj [("id", Json.num 2)]] : List Json).length ∧
      ∀ k, es.get? k =
        (([Json.obj [("statuses_url", Json.str "https://api.github.com/s")],
           Json.obj [("id", Json.num 2)]] : List Json).get? k).map
          (enrichElem (fun _ => .resp 200 (.ok (.arr []))) k) := by
  refine ⟨?_, ?_⟩
  · intro d hd
    simp only [List.mem_cons, List.not_mem_nil, or_false] at hd
    rcases hd with rfl | rfl <;> rfl
  · exact list_enrich_count_and_order
      "https://api.github.com/repos/a/b/deployments"
      (fun _ => .resp 200 (.ok (.arr [])))
      [Json.obj [("statuses_url", Json.str "https://api.github.com/s")],
       Json.obj [("id", Json.num 2)]]
      (by intro d hd
          simp only [List.mem_cons, List.not_mem_nil, or_false] at hd
          rcases hd with rfl | rfl <;> rfl)

/-- C7: the listing call errors exactly on failure.  A non-200 response
always yields an error whose message carries the numeric HTTP status, and
carries the server `message` field when the body is a dict providing
one; a raised request yields an error carrying the exception description;
a 200 response with an empty collection yields the empty sequence, not an
error; a 200 response with a list of dicts yields a full list; and the
result is always either a list or an error, never a partial list
alongside an error. -/
theorem list_deployments_error_contract :
    (∀ (u : String) oracle s body, s < 200 ∨ 300 ≤ s →
        ∃ t, list_deployments (some u) (.resp s body) oracle =
          .err ("Failed to fetch deployments: " ++ toString s ++ t)) ∧
    (∀ (u : String) oracle s fs m, s < 200 ∨ 300 ≤ s →
        lookupKey fs "message" = some (.str m) →
        list_deployments (some u) (.resp s (.ok (.obj fs))) oracle =
          .err ("Failed to fetch deployments: " ++ toString s ++ " - " ++ m)) ∧
    (∀ (u : String) oracle m, list_deployments (some u) (.exn m) oracle =
        .err ("Failed to list deployments: " ++ m)) ∧
    (∀ (u : String) oracle,
        list_deployments (some u) (.resp 200 (.ok (.arr []))) oracle =
          .deployments []) ∧
    (∀ (u : String) oracle ds, (∀ d ∈ ds, d.isObj = true) →
        ∃ es, list_deployments (some u) (.resp 200 (.ok (.arr ds))) oracle =
          .deployments es) ∧
    (∀ bu l oracle, (∃ es, list_deployments bu l oracle = .deployments es) ∨
        (∃ m, list_deployments bu l oracle = .err m)) := by
  refine ⟨?_, ?_, ?_, ?_, ?_, ?_⟩
  · intro u oracle s body h
    have hs : s ≠ 200 := by omega
    cases body with
    | error m =>
        exact ⟨"", by simp [list_deployments, hs, listErrorMsg]⟩
    | ok j =>
        cases j with
        | obj fs =>
            refine ⟨" - " ++
              pyStr ((lookupKey fs "message").getD (.str "No details available")),
              ?_⟩
            simp [list_deployments, hs, listErrorMsg, String.append_assoc]
        | null => exact ⟨"", by simp [list_deployments, hs, listErrorMsg]⟩
        | bool b => exact ⟨"", by simp [list_deployments, hs, listErrorMsg]⟩
        | num n => exact ⟨"", by simp [list_deployments, hs, listErrorMsg]⟩
        | str st => exact ⟨"", by simp [list_deployments, hs, listErrorMsg]⟩
        | arr xs => exact ⟨"", by simp [list_deployments, hs, listErrorMsg]⟩
  · intro u oracle s fs m h hm
    have hs : s ≠ 200 := by omega
    simp [list_deployments, hs, listErrorMsg, hm, pyStr]
  · intro u oracle m
    rfl
  · intro u oracle
    rfl
  · intro u oracle ds hobj
    obtain ⟨es, hes, -, -⟩ := list_enrich_count_and_order u oracle ds hobj
    exact ⟨es, hes⟩
  · intro bu l oracle
    cases hr : list_deployments bu l oracle with
    | deployments es => exact Or.inl ⟨es, rfl⟩
    | err m => exact Or.inr ⟨m, rfl⟩

/-- C7 witness: a 404 listing response whose body carries
`message = "Not Found"` produces the error message with status and
message, and an empty 200 listing produces the empty sequence. -/
theorem list_deployments_error_contract_witness :
    (404 < 200 ∨ 300 ≤ 404) ∧
    lookupKey [("message", Json.str "Not Found")] "message" =
      some (.str "Not Found") ∧
    list_deployments (some "https://api.github.com/repos/a/b/deployments")
        (.resp 404 (.ok (.obj [("message", Json.str "Not Found")])))
        (fun _ => .exn "unused") =
      .err ("Failed to fetch deployments: " ++ toString 404 ++ " - " ++
        "Not Found") ∧
    list_deployments (some "https://api.github.com/repos/a/b/deployments")
        (.resp 200 (.ok (.arr []))) (fun _ => .exn "unused") =
      .deployments [] :=
  ⟨Or.inr (by omega), rfl,
   list_deployments_error_contract.2.1
     "https://api.github.com/repos/a/b/deployments" (fun _ => .exn "unused")
     404 [("message", Json.str "Not Found")] "Not Found" (Or.inr (by omega)) rfl,
   list_deployments_error_contract.2.2.2.1
     "https://api.github.com/repos/a/b/deployments" (fun _ => .exn "unused")⟩

/-- C8: with a repository handle, `mark_inactive` answers `true` exactly
on HTTP 201 and `false` on every other response status; `delete_deployment`
answers `true` exactly on HTTP 204 and `false` on every other response
status; in particular a DELETE answered 404 returns `false` rather than
raising. -/
theorem mutation_status_contract :
    (∀ (u : String) s, (mark_inactive (some u) (.resp s) = .ok true ↔ s = 201) ∧
        (s ≠ 201 → mark_inactive (some u) (.resp s) = .ok false)) ∧
    (∀ (u : String) s,
        (delete_deployment (some u) (.resp s) = .ok true ↔ s = 204) ∧
        (s ≠ 204 → delete_deployment (some u) (.resp s) = .ok false)) ∧
    (∀ u : String, delete_deployment (some u) (.resp 404) = .ok false) := by
  refine ⟨?_, ?_, ?_⟩
  · intro u s
    constructor
    · simp [mark_inactive]
    · intro h; simp [mark_inactive, h]
  · intro u s
    constructor
    · simp [delete_deployment]
    · intro h; simp [delete_deployment, h]
  · intro u
    rfl

/-- C8 witness: 201 marks successfully, a 422 mark and a 404 delete are
boolean failures. -/
theorem mutation_status_contract_witness :
    mark_inactive (some "https://api.github.com/repos/a/b/deployments")
      (.resp 201) = .ok true ∧
    (422 ≠ 201) ∧
    mark_inactive (some "https://api.github.com/repos/a/b/deployments")
      (.resp 422) = .ok false ∧
    delete_deployment (some "https://api.github.com/repos/a/b/deployments")
      (.resp 404) = .ok false :=
  ⟨(mutation_status_contract.1 "https://api.github.com/repos/a/b/deployments"
      201).1.mpr rfl,
   by omega,
   (mutation_status_contract.1 "https://api.github.com/repos/a/b/deployments"
      422).2 (by omega),
   mutation_status_contract.2.2 "https://api.github.com/repos/a/b/deployments"⟩

/-- C10: with no repository handle (`base_url = None`), `list_deployments`
returns the empty sequence and both mutations return `false`, in every
case independently of any transport outcome — no request is issued. -/
theorem none_base_url_no_request :
    (∀ l oracle, list_deployments none l oracle = .deployments []) ∧
    (∀ o, mark_inactive none o = .ok false) ∧
    (∀ o, delete_deployment none o = .ok false) :=
  ⟨fun _ _ => rfl, fun _ => rfl, fun _ => rfl⟩

/-- The `dep.get("id")` value the bulk loops pass to the mutation. -/
def idOf : Json → Json
  | .obj fs => (lookupKey fs "id").getD .null
  | _ => .null

theorem bulkLoop_total (mutate : MutOutcome → Except String Bool)
    (hm : ∀ s, ∃ b, mutate (.resp s) = .ok b)
    (outcome : Nat → MutOutcome) (hresp : ∀ i, ∃ s, outcome i = .resp s)
    (deps : List Json) :
    ∀ i, (∀ d ∈ deps, d.isObj = true) →
      ∃ r, bulkLoop mutate outcome i deps = .ok r ∧
        r.success_count + r.failure_count = deps.length ∧
        r.processed = deps.map idOf := by
  induction deps with
  | nil => intro i _; exact ⟨⟨0, 0, []⟩, rfl, rfl, rfl⟩
  | cons d rest ih =>
      intro i hobj
      have hd : d.isObj = true := hobj d (by simp)
      obtain ⟨s, hs⟩ := hresp i
      obtain ⟨b, hb⟩ := hm s
      obtain ⟨r, hr, hcount, hproc⟩ := ih (i + 1) (fun x hx => hobj x (by simp [hx]))
      cases d with
      | obj fs =>
          cases b with
          | true =>
              refine ⟨⟨r.success_count + 1, r.failure_count,
                idOf (.obj fs) :: r.processed⟩, ?_, by simp; omega, by simp [hproc]⟩
              simp [bulkLoop, dictGet, hs, hb, hr, idOf]
          | false =>
              refine ⟨⟨r.success_count, r.failure_count + 1,
                idOf (.obj fs) :: r.processed⟩, ?_, by simp; omega, by simp [hproc]⟩
              simp [bulkLoop, dictGet, hs, hb, hr, idOf]
      | null => simp [Json.isObj] at hd
      | bool bb => simp [Json.isObj] at hd
      | num n => simp [Json.isObj] at hd
      | str st => simp [Json.isObj] at hd
      | arr xs => simp [Json.isObj] at hd

/-- C1: given that every per-item request yields a response (the per-item
mutation returns a boolean rather than raising), both bulk loops invoke
the mutation on every deployment dict of the input, in input order,
continue past individual failures, and return counts satisfying
success_count + failure_count = input length. -/
theorem bulk_all_items_counts (u : String) (outcome : Nat → MutOutcome)
    (deps : List Json) (hobj : ∀ d ∈ deps, d.isObj = true)
    (hresp : ∀ i, ∃ s, outcome i = .resp s) :
    (∃ r, mark_all_inactive u outcome deps = .ok r ∧
        r.success_count + r.failure_count = deps.length ∧
        r.processed = deps.map idOf) ∧
    (∃ r, delete_all_inactive u outcome deps = .ok r ∧
        r.success_count + r.failure_count = deps.length ∧
        r.processed = deps.map idOf) := by
  constructor
  · exact bulkLoop_total (mark_inactive (some u))
      (fun s => ⟨decide (s = 201), rfl⟩) outcome hresp deps 0 hobj
  · exact bulkLoop_total (delete_deployment (some u))
      (fun s => ⟨decide (s = 204), rfl⟩) outcome hresp deps 0 hobj

/-- C1 witness: two deployments, the first answered successfully and the
second with HTTP 500 — both loops process both items in order and report
counts summing to 2. -/
theorem bulk_all_items_counts_witness :
    (∀ d ∈ ([Json.obj [("id", Json.num 1)], Json.obj [("id", Json.num 2)]] :
        List Json), d.isObj = true) ∧
    (∀ i : Nat, ∃ s,
        (fun j => MutOutcome.resp (if j = 0 then 201 else 500)) i = .resp s) ∧
    (∃ r, mark_all_inactive "https://api.github.com/repos/a/b/deployments"
        (fun j => MutOutcome.resp (if j = 0 then 201 else 500))
        [Json.obj [("id", Json.num 1)], Json.obj [("id", Json.num 2)]] = .ok r ∧
      r.success_count + r.failure_count =
        ([Json.obj [("id", Json.num 1)], Json.obj [("id", Json.num 2)]] :
          List Json).length ∧
      r.processed =
        ([Json.obj [("id", Json.num 1)], Json.obj [("id", Json.num 2)]] :
          List Json).map idOf) ∧
    (∃ r, delete_all_inactive "https://api.github.com/repos/a/b/deployments"
        (fun j => MutOutcome.resp (if j = 0 then 201 else 500))
        [Json.obj [("id", Json.num 1)], Json.obj [("id", Json.num 2)]] = .ok r ∧
      r.success_count + r.failure_count =
        ([Json.obj [("id", Json.num 1)], Json.obj [("id", Json.num 2)]] :
          List Json).length ∧
      r.processed =
        ([Json.obj [("id", Json.num 1)], Json.obj [("id", Json.num 2)]] :
          List Json).map idOf) := by
  refine ⟨?_, fun i => ⟨if i = 0 then 201 else 500, rfl⟩, ?_, ?_⟩
  · intro d hd
    simp only [List.mem_cons, List.not_mem_nil, or_false] at hd
    rcases hd with rfl | rfl <;> rfl
  · exact (bulk_all_items_counts "https://api.github.com/repos/a/b/deployments"
      (fun j => MutOutcome.resp (if j = 0 then 201 else 500))
      [Json.obj [("id", Json.num 1)], Json.obj [("id", Json.num 2)]]
      (by intro d hd
          simp only [List.mem_cons, List.not_mem_nil, or_false] at hd
          rcases hd with rfl | rfl <;> rfl)
      (fun i => ⟨if i = 0 then 201 else 500, rfl⟩)).1
  · exact (bulk_all_items_counts "https://api.github.com/repos/a/b/deployments"
      (fun j => MutOutcome.resp (if j = 0 then 201 else 500))
      [Json.obj [("id", Json.num 1)], Json.obj [("id", Json.num 2)]]
      (by intro d hd
          simp only [List.mem_cons, List.not_mem_nil, or_false] at hd
          rcases hd with rfl | rfl <;> rfl)
      (fun i => ⟨if i = 0 then 201 else 500, rfl⟩)).2
